import Mathlib

/-!
Verification development for the powerbi-mcp-aec control plane.

Shallow embedding of the repository's control-plane code:
- `src/config/toolConfig.ts`: the static tool registry (`ALL_TOOLS`) and
  default tool state.
- `src/config/permissions.ts`: permission profiles (`buildProfileState`,
  `applyProfile`, `isToolAllowed`).
- `src/tools/index.ts`: the dispatch registry (`TOOL_REGISTRY`,
  `dispatchToolCall`, `getEnabledToolDefinitions`).
- `src/server/mcpServer.ts`: configuration loading (`loadConfig`), the
  startup read-only override, and the `fs.watchFile` reload callback.
- `src/auth/authProvider.ts`: the `AuthProvider` token lifecycle
  (`initializeClients`, `updateConfig`, `getAccessToken`, `acquireToken`).
- `src/providers/chatWebViewProvider.ts`: the streaming chat relay decode
  loops (`_sendViaGemini`, `_sendViaGroq`) and terminal-event emission.

External effects (MSAL network calls, the streaming transport, JSON
parsing) are passed in as explicit environment parameters; machine state
(the mutable fields of `AuthProvider`, the server's `toolsState` variable)
is threaded explicitly.
-/

namespace PowerBiMcpAec

/-! ## Data model (src/types/index.ts) -/

/-- `ToolCategory` from src/types/index.ts. -/
inductive ToolCategory where
  | remote
  | modeling
deriving DecidableEq, BEq

/-- `ToolInfo` from src/types/index.ts. -/
structure ToolInfo where
  id : String
  configKey : String
  name : String
  description : String
  category : ToolCategory
  defaultEnabled : Bool
  isDestructive : Bool
  isAdvanced : Bool
deriving DecidableEq, BEq

/-- `ToolsState` from src/types/index.ts: a JS object mapping tool id to a
boolean; a missing key reads as `undefined`, modelled by `none`. -/
def ToolsState : Type := String → Option Bool

/-- JS object spread update `{ ...st, [id]: b }`. -/
def setTool (st : ToolsState) (id : String) (b : Bool) : ToolsState :=
  fun k => if k = id then some b else st k

/-- The empty JS object `{}`. -/
def emptyToolsState : ToolsState := fun _ => none

/-- `AuthMethod` from src/types/index.ts. -/
inductive AuthMethod where
  | interactive
  | deviceCode
  | clientCredentials
deriving DecidableEq, BEq

/-- `AuthConfig` from src/types/index.ts; `clientSecret?` is optional. -/
structure AuthConfig where
  tenantId : String
  clientId : String
  method : AuthMethod
  clientSecret : Option String
deriving DecidableEq, BEq

/-- `ConnectionConfig` from src/types/index.ts. -/
structure ConnectionConfig where
  defaultSemanticModelIds : List String
  xmlaEndpoint : String

/-- `ServerConfig` from src/types/index.ts. -/
structure ServerConfig where
  tools : ToolsState
  auth : AuthConfig
  connection : ConnectionConfig
  readOnly : Bool
  requireConfirmation : Bool

/-! ## Tool configuration registry (src/config/toolConfig.ts) -/

/-- `ALL_TOOLS` from src/config/toolConfig.ts: the full configuration
registry of 19 tool descriptors, in source order. -/
def ALL_TOOLS : List ToolInfo := [
  { id := "local_pbi_operations",
    configKey := "tools.local.localPbiOperations",
    name := "Power BI Desktop Local",
    description := "Detecta e interage com o Power BI Desktop aberto localmente: esquema, tabelas e DAX sem autenticação",
    category := .modeling, defaultEnabled := true,
    isDestructive := false, isAdvanced := false },
  { id := "get_semantic_model_schema",
    configKey := "tools.remote.getSemanticModelSchema",
    name := "Obter Esquema do Modelo Semântico",
    description := "Recupera metadados completos do modelo semântico: tabelas, colunas, medidas e relacionamentos",
    category := .remote, defaultEnabled := true,
    isDestructive := false, isAdvanced := false },
  { id := "generate_query",
    configKey := "tools.remote.generateQuery",
    name := "Gerar Consulta DAX",
    description := "Gera consultas DAX otimizadas a partir de linguagem natural usando o motor Copilot do Power BI",
    category := .remote, defaultEnabled := true,
    isDestructive := false, isAdvanced := false },
  { id := "execute_query",
    configKey := "tools.remote.executeQuery",
    name := "Executar Consulta DAX",
    description := "Executa uma consulta DAX contra o modelo semântico e retorna os resultados",
    category := .remote, defaultEnabled := true,
    isDestructive := false, isAdvanced := false },
  { id := "connection_operations",
    configKey := "tools.modeling.connectionOperations",
    name := "Operações de Conexão",
    description := "Conectar/desconectar do Power BI Desktop, workspace Fabric ou arquivo PBIP",
    category := .modeling, defaultEnabled := true,
    isDestructive := false, isAdvanced := false },
  { id := "database_operations",
    configKey := "tools.modeling.databaseOperations",
    name := "Operações de Banco de Dados",
    description := "Listar, criar, deletar e gerenciar bancos de dados/modelos semânticos",
    category := .modeling, defaultEnabled := true,
    isDestructive := true, isAdvanced := false },
  { id := "transaction_operations",
    configKey := "tools.modeling.transactionOperations",
    name := "Controle de Transações",
    description := "Iniciar, confirmar e reverter transações no modelo semântico",
    category := .modeling, defaultEnabled := true,
    isDestructive := false, isAdvanced := false },
  { id := "table_operations",
    configKey := "tools.modeling.tableOperations",
    name := "Operações em Tabelas",
    description := "Criar, atualizar, listar e deletar tabelas no modelo semântico",
    category := .modeling, defaultEnabled := true,
    isDestructive := true, isAdvanced := false },
  { id := "column_operations",
    configKey := "tools.modeling.columnOperations",
    name := "Operações em Colunas",
    description := "Criar, atualizar, listar e deletar colunas e suas propriedades",
    category := .modeling, defaultEnabled := true,
    isDestructive := true, isAdvanced := false },
  { id := "measure_operations",
    configKey := "tools.modeling.measureOperations",
    name := "Operações em Medidas",
    description := "Criar, atualizar, listar e deletar medidas DAX; refatorar e documentar",
    category := .modeling, defaultEnabled := true,
    isDestructive := true, isAdvanced := false },
  { id := "relationship_operations",
    configKey := "tools.modeling.relationshipOperations",
    name := "Operações em Relacionamentos",
    description := "Criar, atualizar, listar e deletar relacionamentos entre tabelas",
    category := .modeling, defaultEnabled := true,
    isDestructive := true, isAdvanced := false },
  { id := "dax_query_operations",
    configKey := "tools.modeling.daxQueryOperations",
    name := "Operações DAX",
    description := "Validar sintaxe DAX, executar queries, analisar performance e otimizar medidas",
    category := .modeling, defaultEnabled := true,
    isDestructive := false, isAdvanced := false },
  { id := "bulk_operations",
    configKey := "tools.modeling.bulkOperations",
    name := "Operações em Massa",
    description := "Renomear, refatorar, traduzir ou documentar centenas de objetos simultaneamente",
    category := .modeling, defaultEnabled := true,
    isDestructive := true, isAdvanced := false },
  { id := "partition_operations",
    configKey := "tools.modeling.partitionOperations",
    name := "Operações em Partições",
    description := "Gerenciar partições de tabelas para otimização de refresh incremental",
    category := .modeling, defaultEnabled := false,
    isDestructive := true, isAdvanced := true },
  { id := "calculation_group_operations",
    configKey := "tools.modeling.calculationGroupOperations",
    name := "Grupos de Cálculo",
    description := "Criar e gerenciar grupos de cálculo e itens de cálculo",
    category := .modeling, defaultEnabled := false,
    isDestructive := true, isAdvanced := true },
  { id := "security_role_operations",
    configKey := "tools.modeling.securityRoleOperations",
    name := "Funções de Segurança (RLS)",
    description := "Gerenciar funções de segurança e filtros RLS (Row-Level Security)",
    category := .modeling, defaultEnabled := false,
    isDestructive := true, isAdvanced := true },
  { id := "perspective_operations",
    configKey := "tools.modeling.perspectiveOperations",
    name := "Perspectivas",
    description := "Criar e gerenciar perspectivas para simplificar visualização do modelo",
    category := .modeling, defaultEnabled := false,
    isDestructive := false, isAdvanced := true },
  { id := "trace_operations",
    configKey := "tools.modeling.traceOperations",
    name := "Rastreamento e Monitoramento",
    description := "Capturar e analisar eventos do Analysis Services para diagnóstico",
    category := .modeling, defaultEnabled := false,
    isDestructive := false, isAdvanced := true },
  { id := "culture_operations",
    configKey := "tools.modeling.cultureOperations",
    name := "Cultura e Localização",
    description := "Gerenciar traduções e localizações de objetos do modelo",
    category := .modeling, defaultEnabled := false,
    isDestructive := false, isAdvanced := true }
]

/-- `getDefaultToolsState` from src/config/toolConfig.ts: `state[tool.id] =
tool.defaultEnabled` for every tool of `ALL_TOOLS`. -/
def getDefaultToolsState : ToolsState :=
  ALL_TOOLS.foldl (fun st t => setTool st t.id t.defaultEnabled) emptyToolsState

/-! ## Permissions manager (src/config/permissions.ts) -/

/-- `PermissionProfile` from src/config/permissions.ts. -/
structure PermissionProfile where
  name : String
  description : String
  toolsState : ToolsState

/-- `buildProfileState` from src/config/permissions.ts: evaluate the
predicate on every descriptor of `ALL_TOOLS`. -/
def buildProfileState (predicate : ToolInfo → Bool) : ToolsState :=
  ALL_TOOLS.foldl (fun st t => setTool st t.id (predicate t)) emptyToolsState

/-- `PERMISSION_PROFILES` from src/config/permissions.ts. -/
def PERMISSION_PROFILES : List PermissionProfile := [
  { name := "Somente Leitura",
    description := "Apenas consultas e leitura de esquema — sem modificações",
    toolsState := buildProfileState (fun tool => !tool.isDestructive && !tool.isAdvanced) },
  { name := "Desenvolvedor",
    description := "Acesso completo às ferramentas básicas de modelagem",
    toolsState := buildProfileState (fun tool => !tool.isAdvanced) },
  { name := "Avançado",
    description := "Acesso completo incluindo ferramentas avançadas",
    toolsState := buildProfileState (fun _ => true) },
  { name := "Apenas DAX",
    description := "Somente operações relacionadas a DAX",
    toolsState := buildProfileState (fun tool =>
      ["get_semantic_model_schema", "generate_query", "execute_query",
       "dax_query_operations", "measure_operations"].contains tool.id) }
]

/-- `isToolAllowed` from src/config/permissions.ts:
`toolsState[toolId] === true`. -/
def isToolAllowed (toolId : String) (toolsState : ToolsState) : Bool :=
  toolsState toolId == some true

/-- `applyProfile` from src/config/permissions.ts: returns a copy of the
profile's stored state (`{ ...profile.toolsState }`). -/
def applyProfile (profile : PermissionProfile) : ToolsState :=
  profile.toolsState

/-- Applying a profile to the currently stored `ToolsState` overwrites it
wholesale with `applyProfile profile`; the previous state is discarded. -/
def applyProfileUpdate (_current : ToolsState) (profile : PermissionProfile) : ToolsState :=
  applyProfile profile

/-! ## Dispatch registry (src/tools/index.ts) -/

/-- The 17 keys of `TOOL_REGISTRY` in src/tools/index.ts, in source order.
Note: `transaction_operations` and `perspective_operations` of `ALL_TOOLS`
have no entry here. -/
def registryIds : List String := [
  "local_pbi_operations",
  "get_semantic_model_schema",
  "generate_query",
  "execute_query",
  "connection_operations",
  "database_operations",
  "table_operations",
  "column_operations",
  "measure_operations",
  "relationship_operations",
  "dax_query_operations",
  "bulk_operations",
  "security_role_operations",
  "partition_operations",
  "calculation_group_operations",
  "trace_operations",
  "culture_operations"
]

/-- `TOOL_REGISTRY` from src/tools/index.ts, as a map from tool id to its
handler. Handler bodies are out of scope (each wraps an upstream remote
call and closes over the `PowerBiClient`), so the per-id handlers are an
abstract parameter `handlers`; the registry associates each registered id
with its handler. -/
def TOOL_REGISTRY {A R : Type} (handlers : String → A → R) : List (String × (A → R)) :=
  registryIds.map (fun id => (id, handlers id))

/-- Result of `dispatchToolCall`: the two `throw new Error(...)` paths of
src/tools/index.ts, or the registered handler's outcome propagated
verbatim. -/
inductive DispatchOutcome (R : Type) where
  | errUnknown (message : String)
  | errDisabled (message : String)
  | ok (result : R)
deriving DecidableEq, BEq

/-- `dispatchToolCall` from src/tools/index.ts: look the name up in
`TOOL_REGISTRY` (unknown-tool error when absent), then check
`toolsState[toolName]` for truthiness (disabled-tool error when falsy),
then invoke the registered handler. -/
def dispatchToolCall {A R : Type} (handlers : String → A → R)
    (toolName : String) (args : A) (toolsState : ToolsState) : DispatchOutcome R :=
  match (TOOL_REGISTRY handlers).lookup toolName with
  | none => .errUnknown ("Ferramenta desconhecida: " ++ toolName)
  | some handler =>
    if (toolsState toolName).getD false then
      .ok (handler args)
    else
      .errDisabled ("Ferramenta " ++ toolName ++
        " está desabilitada. Habilite-a nas configurações do PowerBi MCP AeC.")

/-- `getEnabledToolDefinitions` from src/tools/index.ts: the definitions of
registry entries whose id satisfies `toolsState[id] === true`. Each
definition is identified by its `name` field, which coincides with the
registry key, so definitions are modelled by those names. -/
def getEnabledToolDefinitions (toolsState : ToolsState) : List String :=
  registryIds.filter (fun id => toolsState id == some true)

/-! ## Auth provider (src/auth/authProvider.ts) -/

/-- The fields of an MSAL `AuthenticationResult` that the provider reads:
the opaque token string and `expiresOn : Date | null`, modelled as
milliseconds since epoch. -/
structure TokenResult where
  accessToken : String
  expiresOn : Option Int
deriving DecidableEq, BEq

/-- The mutable fields of the `AuthProvider` class: `pca` and `cca` record
whether a `PublicClientApplication` / `ConfidentialClientApplication` is
currently initialized (`undefined` reads as `false`). -/
structure AuthState where
  config : AuthConfig
  pca : Bool
  cca : Bool
  cachedToken : Option TokenResult
deriving DecidableEq, BEq

/-- Truthiness of `this.config.clientSecret` (absent or empty is falsy). -/
def secretTruthy (config : AuthConfig) : Bool :=
  match config.clientSecret with
  | some sec => !(sec == "")
  | none => false

/-- `initializeClients` from src/auth/authProvider.ts: with the
clientCredentials method and a truthy secret, construct a confidential
client; otherwise construct a public client. The branch not taken leaves
the other client field untouched. -/
def initializeClients (s : AuthState) : AuthState :=
  if s.config.method == .clientCredentials && secretTruthy s.config then
    { s with cca := true }
  else
    { s with pca := true }

/-- The `AuthProvider` constructor: store the config and run
`initializeClients`; no clients and no cached token exist beforehand. -/
def mkAuthProvider (config : AuthConfig) : AuthState :=
  initializeClients { config := config, pca := false, cca := false, cachedToken := none }

/-- `updateConfig` from src/auth/authProvider.ts: replace the config, drop
the cached token unconditionally, and rerun `initializeClients`. -/
def updateConfig (s : AuthState) (config : AuthConfig) : AuthState :=
  initializeClients { s with config := config, cachedToken := none }

/-- Results of the awaited MSAL calls, one per acquisition path; passed in
as the environment of a single acquisition attempt. `interactiveResult` is
the outcome of the silent-then-interactive sequence, `clientCredResult`
the outcome of `acquireTokenByClientCredential` (the network call). -/
structure AcquireEnv where
  interactiveResult : Except String TokenResult
  deviceCodeResult : Except String TokenResult
  clientCredResult : Except String TokenResult

instance exceptDecEq {ε α : Type} [DecidableEq ε] [DecidableEq α] :
    DecidableEq (Except ε α)
  | .error x, .error y =>
    if h : x = y then .isTrue (congrArg Except.error h)
    else .isFalse (fun hh => h (Except.error.inj hh))
  | .error _, .ok _ => .isFalse (fun hh => Except.noConfusion hh)
  | .ok _, .error _ => .isFalse (fun hh => Except.noConfusion hh)
  | .ok x, .ok y =>
    if h : x = y then .isTrue (congrArg Except.ok h)
    else .isFalse (fun hh => h (Except.ok.inj hh))

/-- `acquireToken` from src/auth/authProvider.ts, including the fail-fast
guards of `acquireInteractive` / `acquireDeviceCode` /
`acquireClientCredentials` that run before any external call. -/
def acquireToken (s : AuthState) (env : AcquireEnv) : Except String TokenResult :=
  match s.config.method with
  | .interactive =>
    if s.pca then env.interactiveResult
    else .error "PublicClientApplication não inicializado"
  | .deviceCode =>
    if s.pca then env.deviceCodeResult
    else .error "PublicClientApplication não inicializado"
  | .clientCredentials =>
    if !s.cca then .error "ConfidentialClientApplication não inicializado"
    else if s.config.tenantId == "" then .error "tenantId é obrigatório para Client Credentials"
    else env.clientCredResult

/-- The tail of `getAccessToken`: `const token = await this.acquireToken();
this.cachedToken = token; return token.accessToken;` — on failure the
exception propagates before the cache assignment runs. -/
def acquireAndCache (s : AuthState) (env : AcquireEnv) :
    Except String String × AuthState :=
  match acquireToken s env with
  | .ok token => (.ok token.accessToken, { s with cachedToken := some token })
  | .error e => (.error e, s)

/-- `getAccessToken` from src/auth/authProvider.ts: return the cached token
when one exists with a non-null `expiresOn` more than 5 minutes
(300000 ms) past `now`; otherwise acquire afresh and cache the result. -/
def getAccessToken (s : AuthState) (now : Int) (env : AcquireEnv) :
    Except String String × AuthState :=
  match s.cachedToken with
  | some cached =>
    match cached.expiresOn with
    | some expiresOn =>
      if expiresOn - now > 5 * 60 * 1000 then (.ok cached.accessToken, s)
      else acquireAndCache s env
    | none => acquireAndCache s env
  | none => acquireAndCache s env

/-- One externally driven operation on the provider: a config update or a
`getAccessToken` call at some instant with the environment's responses. -/
inductive AuthOp where
  | update (config : AuthConfig)
  | getTok (now : Int) (env : AcquireEnv)

/-- Run one operation, returning the next state and the call's outcome
(`none` for `update`, which returns void). -/
def authStep (s : AuthState) : AuthOp → AuthState × Option (Except String String)
  | .update config => (updateConfig s config, none)
  | .getTok now env =>
    let r := getAccessToken s now env
    (r.2, some r.1)

/-- Run a sequence of operations, collecting every `getAccessToken`
outcome in order. -/
def authRun (s : AuthState) : List AuthOp → AuthState × List (Except String String)
  | [] => (s, [])
  | op :: ops =>
    let step := authStep s op
    let rest := authRun step.1 ops
    (rest.1, step.2.toList ++ rest.2)

/-- The token strings the environment offers in one acquisition attempt. -/
def envTokenStrings (env : AcquireEnv) : List String :=
  (match env.interactiveResult with | .ok tk => [tk.accessToken] | .error _ => []) ++
  (match env.deviceCodeResult with | .ok tk => [tk.accessToken] | .error _ => []) ++
  (match env.clientCredResult with | .ok tk => [tk.accessToken] | .error _ => [])

/-- All token strings the environment offers across a list of operations. -/
def opsTokenStrings : List AuthOp → List String
  | [] => []
  | .update _ :: ops => opsTokenStrings ops
  | .getTok _ env :: ops => envTokenStrings env ++ opsTokenStrings ops

/-! ## MCP server configuration handling (src/server/mcpServer.ts) -/

/-- The environment variables `loadConfig` reads, each `Option` because a
process env var may be unset. -/
structure ServerEnv where
  tenantIdVar : Option String
  clientIdVar : Option String
  xmlaEndpointVar : Option String
  readOnlyVar : Option String

/-- JS `a || b` for an env var: unset or empty falls back to the default. -/
def envOrDefault (v : Option String) (dflt : String) : String :=
  match v with
  | some s => if s == "" then dflt else s
  | none => dflt

/-- The default `ServerConfig` literal returned by `loadConfig` when no
config file is found or the file cannot be parsed. -/
def defaultServerConfig (env : ServerEnv) : ServerConfig where
  tools := getDefaultToolsState
  auth :=
    { tenantId := envOrDefault env.tenantIdVar "common"
      clientId := envOrDefault env.clientIdVar "ea0616ba-638b-4df5-95b9-636659ae5121"
      method := .interactive
      clientSecret := none }
  connection :=
    { defaultSemanticModelIds := []
      xmlaEndpoint := envOrDefault env.xmlaEndpointVar "" }
  readOnly := env.readOnlyVar == some "true"
  requireConfirmation := true

/-- `loadConfig` from src/server/mcpServer.ts. `configPath` is the
`POWERBI_MCP_AEC_CONFIG` env var, `fileExists` the `fs.existsSync` answer,
and `parsed` the outcome of `JSON.parse` on the file contents (`none`
models a parse exception, which is caught, logged to stderr, and falls
through to the default config). -/
def loadConfig (configPath : Option String) (fileExists : Bool)
    (parsed : Option ServerConfig) (env : ServerEnv) : ServerConfig :=
  if envOrDefault configPath "" != "" && fileExists then
    match parsed with
    | some cfg => cfg
    | none => defaultServerConfig env
  else defaultServerConfig env

/-- The startup read-only pass in `main` (src/server/mcpServer.ts lines
201-211): when `config.readOnly` is set, walk `ALL_TOOLS` and force every
destructive tool's entry to `false`. -/
def startupToolsState (config : ServerConfig) : ToolsState :=
  if config.readOnly then
    ALL_TOOLS.foldl
      (fun st tool => if tool.isDestructive then setTool st tool.id false else st)
      config.tools
  else config.tools

/-- The `fs.watchFile` reload callback (src/server/mcpServer.ts lines
294-306) assigns `toolsState = newConfig.tools` directly; the
`if (newConfig.readOnly)` block that follows is empty in the source (its
body is only the comment `Re-apply read-only restriction`), so no
destructive tool is forced off on reload. -/
def reloadedToolsState (newConfig : ServerConfig) : ToolsState :=
  newConfig.tools

/-- The state the server publishes to consumers: the `toolsState` variable
read by the list/call handlers, and the auth provider singleton. -/
structure PublishedState where
  tools : ToolsState
  auth : AuthState

/-- The whole reload callback: recompute the tool state from the newly
loaded config (without the read-only pass, see `reloadedToolsState`) and
push the new auth config into the provider. -/
def reloadCallback (prev : PublishedState) (loaded : ServerConfig) : PublishedState where
  tools := reloadedToolsState loaded
  auth := updateConfig prev.auth loaded.auth

/-! ## Streaming chat relay (src/providers/chatWebViewProvider.ts) -/

/-- The events the relay posts to the webview: `chat:chunk`, `chat:done`,
`chat:error`. -/
inductive ChatEvent where
  | chunk (text : String)
  | done
  | error (message : String)
deriving DecidableEq, BEq

/-- Outcome of decoding one SSE payload string: `JSON.parse` threw
(`parseFail`), parsed but the optional text field is absent (`noText`),
or the extracted text field (`text`, possibly empty — the relay's
truthiness check skips empty strings). -/
inductive DecodeResult where
  | parseFail
  | noText
  | text (s : String)
deriving DecidableEq, BEq

/-- JS `String.prototype.startsWith`. -/
def jsStartsWith (s pre : String) : Bool :=
  pre.toList.isPrefixOf s.toList

/-- JS `String.prototype.split` on a single newline character, over char
lists: every occurrence separates, empty segments are kept. -/
def jsSplitNewlineList : List Char → List (List Char)
  | [] => [[]]
  | c :: cs =>
    let rest := jsSplitNewlineList cs
    if c = '\n' then [] :: rest
    else
      match rest with
      | r :: rs => (c :: r) :: rs
      | [] => [[c]]

/-- JS `buffer.split('\n')`. -/
def jsSplitNewline (s : String) : List String :=
  (jsSplitNewlineList s.toList).map (fun cs => String.mk cs)

/-- JS `String.prototype.trim`: strip whitespace from both ends. -/
def jsTrim (s : String) : String :=
  String.mk (((s.toList.dropWhile Char.isWhitespace).reverse.dropWhile
    Char.isWhitespace).reverse)

/-- The per-line body of `_sendViaGemini`'s decode loop: only lines
starting with `data: ` are considered; the payload after the 6-character
prefix is parsed, malformed lines are skipped silently (`catch` with an
empty body), and a chunk event is posted only for a truthy text field. -/
def geminiProcessLine (decode : String → DecodeResult) (line : String) : List ChatEvent :=
  if jsStartsWith line "data: " then
    match decode (line.drop 6) with
    | .text s => if s == "" then [] else [.chunk s]
    | .parseFail => []
    | .noText => []
  else []

/-- The per-line body of `_sendViaGroq`'s decode loop: same shape, with the
payload trimmed and the `[DONE]` sentinel skipped. -/
def groqProcessLine (decode : String → DecodeResult) (line : String) : List ChatEvent :=
  if jsStartsWith line "data: " then
    let payload := jsTrim (line.drop 6)
    if payload == "[DONE]" then []
    else
      match decode payload with
      | .text s => if s == "" then [] else [.chunk s]
      | .parseFail => []
      | .noText => []
  else []

/-- One iteration of the `for await (const chunk of response.data)` loop:
append the chunk to the line buffer, split on newlines, keep the trailing
partial line as the new buffer, and process each complete line. -/
def feedTransportChunk (processLine : String → List ChatEvent)
    (acc : String × List ChatEvent) (chunk : String) : String × List ChatEvent :=
  let parts := jsSplitNewline (acc.1 ++ chunk)
  (parts.getLastD "", acc.2 ++ parts.dropLast.foldl (fun es l => es ++ processLine l) [])

/-- The chunk events produced by a full decode loop over the delivered
transport chunks. A trailing partial line left in the buffer when the
stream ends is never processed, exactly as in the source. -/
def streamChunkEvents (processLine : String → List ChatEvent)
    (delivered : List String) : List ChatEvent :=
  (delivered.foldl (feedTransportChunk processLine) ("", [])).2

/-- Whether `haystack` contains `needle` as a substring
(JS `String.prototype.includes`). -/
def containsSub (haystack needle : String) : Bool :=
  haystack.toList.tails.any (fun t => needle.toList.isPrefixOf t)

/-- The classification in `_handleMessage`'s catch block for `chat:send`:
messages mentioning cancellation resolve the stream as `done`, every other
failure as `error`. -/
def isCancelLike (message : String) : Bool :=
  containsSub message "Cancelled" || containsSub message "AbortError" ||
  containsSub message "canceled"

/-- The terminal event of one send: `chat:done` posted at the end of the
provider method when the transport completes, otherwise the catch block's
classification of the propagated exception message. -/
def terminalEvent (transportError : Option String) : ChatEvent :=
  match transportError with
  | none => .done
  | some message => if isCancelLike message then .done else .error message

/-- The full event sequence of one `chat:send` via Gemini: the decode
loop's chunk events over the chunks delivered before the transport either
completed (`transportError = none`) or threw (`some message`, which aborts
the loop and reaches the catch block), followed by the single terminal
event. -/
def geminiSendEvents (decode : String → DecodeResult) (delivered : List String)
    (transportError : Option String) : List ChatEvent :=
  streamChunkEvents (geminiProcessLine decode) delivered ++ [terminalEvent transportError]

/-- The full event sequence of one `chat:send` via Groq. -/
def groqSendEvents (decode : String → DecodeResult) (delivered : List String)
    (transportError : Option String) : List ChatEvent :=
  streamChunkEvents (groqProcessLine decode) delivered ++ [terminalEvent transportError]

/-- Whether an event is terminal (`done` or `error`). -/
def isTerminal : ChatEvent → Bool
  | .chunk _ => false
  | .done => true
  | .error _ => true

/-- Number of error events in a sequence. -/
def countErrors (events : List ChatEvent) : Nat :=
  events.countP (fun e => match e with | .error _ => true | _ => false)

/-- Number of terminal events in a sequence. -/
def countTerminals (events : List ChatEvent) : Nat :=
  events.countP (fun e => isTerminal e)

/-! ## Helper lemmas -/

/-- Looking a key up in an id-to-handler map built over a key list finds
the attached handler exactly when the key is listed. -/
theorem lookup_map_pair {R : Type} (f : String → R) (l : List String) (n : String) :
    (l.map (fun id => (id, f id))).lookup n = if n ∈ l then some (f n) else none := by
  induction l with
  | nil => rfl
  | cons a as ih =>
    by_cases h : n = a
    · subst h
      simp [List.lookup]
    · have hb : (n == a) = false := beq_false_of_ne h
      simp [List.lookup, hb, ih, List.mem_cons, h]

/-- `TOOL_REGISTRY` lookup resolves through `registryIds`. -/
theorem lookup_TOOL_REGISTRY {A R : Type} (handlers : String → A → R) (n : String) :
    (TOOL_REGISTRY handlers).lookup n
      = if n ∈ registryIds then some (handlers n) else none :=
  lookup_map_pair handlers registryIds n

/-- `updateConfig` always leaves the token cache empty. -/
theorem updateConfig_cachedToken (s : AuthState) (c : AuthConfig) :
    (updateConfig s c).cachedToken = none := by
  unfold updateConfig initializeClients
  split <;> rfl

/-- A successful `acquireToken` returns one of the environment's tokens. -/
theorem acquireToken_ok_mem_env (s : AuthState) (env : AcquireEnv) (tok : TokenResult)
    (h : acquireToken s env = .ok tok) : tok.accessToken ∈ envTokenStrings env := by
  unfold acquireToken at h
  unfold envTokenStrings
  cases hm : s.config.method
  case interactive =>
    rw [hm] at h
    dsimp only at h
    by_cases hp : s.pca = true
    · rw [if_pos hp] at h
      rw [h]
      simp
    · rw [if_neg hp] at h
      exact Except.noConfusion h
  case deviceCode =>
    rw [hm] at h
    dsimp only at h
    by_cases hp : s.pca = true
    · rw [if_pos hp] at h
      rw [h]
      simp
    · rw [if_neg hp] at h
      exact Except.noConfusion h
  case clientCredentials =>
    rw [hm] at h
    dsimp only at h
    by_cases hc : (!s.cca) = true
    · rw [if_pos hc] at h
      exact Except.noConfusion h
    · rw [if_neg hc] at h
      by_cases ht : (s.config.tenantId == "") = true
      · rw [if_pos ht] at h
        exact Except.noConfusion h
      · rw [if_neg ht] at h
        rw [h]
        simp

/-- If neither the current cache nor the environment can produce the
string `t`, one `getAccessToken` call neither returns `t` nor leaves `t`
in the cache. -/
theorem getAccessToken_avoids (t : String) (s : AuthState) (now : Int) (env : AcquireEnv)
    (hs : ∀ tk, s.cachedToken = some tk → tk.accessToken ≠ t)
    (henv : ∀ str, str ∈ envTokenStrings env → str ≠ t) :
    (getAccessToken s now env).1 ≠ Except.ok t
    ∧ ∀ tk, (getAccessToken s now env).2.cachedToken = some tk → tk.accessToken ≠ t := by
  have hfresh : (acquireAndCache s env).1 ≠ Except.ok t
      ∧ ∀ tk, (acquireAndCache s env).2.cachedToken = some tk → tk.accessToken ≠ t := by
    unfold acquireAndCache
    cases hacq : acquireToken s env
    case ok tok =>
      have hne := henv tok.accessToken (acquireToken_ok_mem_env s env tok hacq)
      refine ⟨fun hcontra => hne (Except.ok.inj hcontra), fun tk hk => ?_⟩
      have htk : some tok = some tk := hk
      rw [← Option.some.inj htk]
      exact hne
    case error e =>
      exact ⟨fun hcontra => Except.noConfusion hcontra, hs⟩
  unfold getAccessToken
  cases hcache : s.cachedToken
  case none => exact hfresh
  case some cached =>
    dsimp only
    cases hexp : cached.expiresOn
    case none => exact hfresh
    case some expOn =>
      dsimp only
      by_cases hv : expOn - now > 5 * 60 * 1000
      · rw [if_pos hv]
        exact ⟨fun hcontra => hs cached hcache (Except.ok.inj hcontra), hs⟩
      · rw [if_neg hv]
        exact hfresh

/-- Freshness invariant over a whole operation sequence: a token string
offered neither by the starting cache nor by any later environment is
never returned. -/
theorem authRun_avoids (t : String) :
    ∀ (ops : List AuthOp) (s : AuthState),
      (∀ tk, s.cachedToken = some tk → tk.accessToken ≠ t) →
      t ∉ opsTokenStrings ops →
      Except.ok t ∉ (authRun s ops).2 := by
  intro ops
  induction ops with
  | nil =>
    intro s _ _ hmem
    exact absurd hmem (by simp [authRun])
  | cons op rest ih =>
    intro s hs hops
    cases op
    case update c =>
      unfold authRun authStep
      dsimp only
      intro hmem
      rw [Option.toList, List.nil_append] at hmem
      refine ih (updateConfig s c) ?_ hops hmem
      intro tk hk
      rw [updateConfig_cachedToken] at hk
      exact Option.noConfusion hk
    case getTok now env =>
      rw [show opsTokenStrings (AuthOp.getTok now env :: rest)
            = envTokenStrings env ++ opsTokenStrings rest from rfl,
          List.mem_append, not_or] at hops
      have hga := getAccessToken_avoids t s now env hs
        (fun str hstr hEq => hops.1 (hEq ▸ hstr))
      unfold authRun authStep
      dsimp only
      intro hmem
      rcases List.mem_append.mp hmem with h1 | h2
      · rw [Option.toList, List.mem_singleton] at h1
        exact hga.1 h1.symm
      · exact ih ((getAccessToken s now env).2) hga.2 hops.2 h2

/-! ## Claim C3 -/

/-- Claim C3: after `updateConfig`, no later `getAccessToken` call ever
returns a token acquired before that update — formally, any token string
not offered by the environment in the operations after the update (in
particular the pre-update cached token, however far its expiry) is never
among the post-update outcomes: the cache is unconditionally discarded by
`updateConfig`. -/
theorem claim_C3_no_stale_token_after_update (s : AuthState) (c : AuthConfig)
    (ops : List AuthOp) (t : String) (h : t ∉ opsTokenStrings ops) :
    Except.ok t ∉ (authRun (updateConfig s c) ops).2 := by
  refine authRun_avoids t ops (updateConfig s c) ?_ h
  intro tk hk
  rw [updateConfig_cachedToken] at hk
  exact Option.noConfusion hk

/-- A provider state holding a still-valid pre-update token `OLD`. -/
def stateWithOldToken : AuthState where
  config := { tenantId := "tenant1", clientId := "client1",
              method := .interactive, clientSecret := none }
  pca := true
  cca := false
  cachedToken := some { accessToken := "OLD", expiresOn := some 999999999 }

/-- An environment whose only acquirable token is `NEW`. -/
def envNew : AcquireEnv where
  interactiveResult := .ok { accessToken := "NEW", expiresOn := some 999999999 }
  deviceCodeResult := .error "device code indisponível"
  clientCredResult := .error "client credentials indisponível"

theorem claim_C3_witness :
    "OLD" ∉ opsTokenStrings [AuthOp.getTok 0 envNew, AuthOp.getTok 1 envNew]
    ∧ Except.ok "OLD" ∉
        (authRun
          (updateConfig stateWithOldToken
            { tenantId := "tenant2", clientId := "client1",
              method := .interactive, clientSecret := none })
          [AuthOp.getTok 0 envNew, AuthOp.getTok 1 envNew]).2 :=
  ⟨by decide,
   claim_C3_no_stale_token_after_update stateWithOldToken
     { tenantId := "tenant2", clientId := "client1",
       method := .interactive, clientSecret := none }
     [AuthOp.getTok 0 envNew, AuthOp.getTok 1 envNew] "OLD" (by decide)⟩

/-! ## Claim C4 -/

/-- Claim C4: `getAccessToken` returns the cached token exactly when a
cached token exists whose expiry exceeds `now` by more than 5 minutes —
in that case no acquisition is attempted (the result is independent of the
environment and the state is unchanged) and the returned string is the
cached one; in every other case a fresh acquisition is consulted, and on
success its token is returned and becomes the new cache (on failure the
error propagates with the cache untouched). -/
theorem claim_C4_cache_policy (s : AuthState) (now : Int) (env env2 : AcquireEnv) :
    (∀ tk expOn, s.cachedToken = some tk → tk.expiresOn = some expOn →
      expOn - now > 5 * 60 * 1000 →
      getAccessToken s now env = (.ok tk.accessToken, s)
      ∧ getAccessToken s now env2 = getAccessToken s now env)
    ∧ ((∀ tk expOn, s.cachedToken = some tk → tk.expiresOn = some expOn →
          expOn - now ≤ 5 * 60 * 1000) →
      (∀ tok, acquireToken s env = .ok tok →
        getAccessToken s now env = (.ok tok.accessToken, { s with cachedToken := some tok }))
      ∧ (∀ e, acquireToken s env = .error e →
        getAccessToken s now env = (.error e, s))) := by
  have hAcq : ∀ (envx : AcquireEnv),
      (∀ tok, acquireToken s envx = .ok tok →
        acquireAndCache s envx = (.ok tok.accessToken, { s with cachedToken := some tok }))
      ∧ (∀ e, acquireToken s envx = .error e →
        acquireAndCache s envx = (.error e, s)) := by
    intro envx
    constructor
    · intro tok htok
      unfold acquireAndCache
      rw [htok]
    · intro e he
      unfold acquireAndCache
      rw [he]
  constructor
  · intro tk expOn hcache hexp hvalid
    unfold getAccessToken
    rw [hcache]
    dsimp only
    rw [hexp]
    dsimp only
    rw [if_pos hvalid, if_pos hvalid]
    exact ⟨rfl, rfl⟩
  · intro hmiss
    have hfresh : getAccessToken s now env = acquireAndCache s env := by
      unfold getAccessToken
      cases hcache : s.cachedToken
      case none => rfl
      case some cached =>
        dsimp only
        cases hexp : cached.expiresOn
        case none => rfl
        case some expOn =>
          dsimp only
          rw [if_neg (by
            have := hmiss cached expOn hcache hexp
            omega)]
    exact ⟨fun tok htok => by rw [hfresh]; exact (hAcq env).1 tok htok,
           fun e he => by rw [hfresh]; exact (hAcq env).2 e he⟩

theorem claim_C4_witness :
    stateWithOldToken.cachedToken
        = some { accessToken := "OLD", expiresOn := some 999999999 }
    ∧ getAccessToken stateWithOldToken 0 envNew = (.ok "OLD", stateWithOldToken)
    ∧ getAccessToken stateWithOldToken 0 envNew
        = getAccessToken stateWithOldToken 0
            { interactiveResult := .error "rede fora do ar",
              deviceCodeResult := .error "rede fora do ar",
              clientCredResult := .error "rede fora do ar" } :=
  ⟨rfl,
   ((claim_C4_cache_policy stateWithOldToken 0 envNew envNew).1
      { accessToken := "OLD", expiresOn := some 999999999 } 999999999
      rfl rfl (by decide)).1,
   ((claim_C4_cache_policy stateWithOldToken 0
      { interactiveResult := .error "rede fora do ar",
        deviceCodeResult := .error "rede fora do ar",
        clientCredResult := .error "rede fora do ar" } envNew).1
      { accessToken := "OLD", expiresOn := some 999999999 } 999999999
      rfl rfl (by decide)).2⟩

/-! ## Claim C2 -/

/-- Claim C2: `dispatchToolCall` fails with the unknown-tool error for
unregistered ids and with the disabled-tool error for registered ids the
state does not enable, in both cases invoking no handler (the outcome is
independent of the handler table); otherwise it invokes exactly the
registered handler and returns its outcome unchanged. -/
theorem claim_C2_dispatch_contract {A R : Type} (handlers handlers2 : String → A → R)
    (toolName : String) (args : A) (toolsState : ToolsState) :
    (toolName ∉ registryIds →
      dispatchToolCall handlers toolName args toolsState
          = .errUnknown ("Ferramenta desconhecida: " ++ toolName)
      ∧ dispatchToolCall handlers2 toolName args toolsState
          = dispatchToolCall handlers toolName args toolsState)
    ∧ (toolName ∈ registryIds → (toolsState toolName).getD false = false →
      dispatchToolCall handlers toolName args toolsState
          = .errDisabled ("Ferramenta " ++ toolName ++
              " está desabilitada. Habilite-a nas configurações do PowerBi MCP AeC.")
      ∧ dispatchToolCall handlers2 toolName args toolsState
          = dispatchToolCall handlers toolName args toolsState)
    ∧ (toolName ∈ registryIds → (toolsState toolName).getD false = true →
      dispatchToolCall handlers toolName args toolsState
          = .ok (handlers toolName args)) := by
  refine ⟨fun hout => ?_, fun hin hoff => ?_, fun hin hon => ?_⟩
  · unfold dispatchToolCall
    simp only [lookup_TOOL_REGISTRY, if_neg hout]
    constructor <;> trivial
  · unfold dispatchToolCall
    simp only [lookup_TOOL_REGISTRY, if_pos hin, hoff]
    constructor <;> trivial
  · unfold dispatchToolCall
    simp only [lookup_TOOL_REGISTRY, if_pos hin, hon]
    trivial

theorem claim_C2_witness :
    ("tool_inexistente" ∉ registryIds
      ∧ dispatchToolCall (fun n (_ : Unit) => n) "tool_inexistente" () emptyToolsState
          = .errUnknown "Ferramenta desconhecida: tool_inexistente")
    ∧ ("execute_query" ∈ registryIds
      ∧ dispatchToolCall (fun n (_ : Unit) => n) "execute_query" () emptyToolsState
          = .errDisabled "Ferramenta execute_query está desabilitada. Habilite-a nas configurações do PowerBi MCP AeC."
      ∧ dispatchToolCall (fun n (_ : Unit) => n) "execute_query" ()
            (setTool emptyToolsState "execute_query" true)
          = .ok "execute_query") :=
  ⟨⟨by decide,
    (claim_C2_dispatch_contract (fun n (_ : Unit) => n) (fun _ _ => "")
      "tool_inexistente" () emptyToolsState).1 (by decide) |>.1⟩,
   ⟨by decide,
    ((claim_C2_dispatch_contract (fun n (_ : Unit) => n) (fun _ _ => "")
      "execute_query" () emptyToolsState).2.1 (by decide) (by decide)).1,
    (claim_C2_dispatch_contract (fun n (_ : Unit) => n) (fun _ _ => "")
      "execute_query" () (setTool emptyToolsState "execute_query" true)).2.2
      (by decide) (by decide)⟩⟩

/-! ## Claim C10 -/

/-- Claim C10: `transaction_operations` and `perspective_operations` are
registered in the configuration registry `ALL_TOOLS` (with descriptors,
config keys and default-enabled `true`) but absent from the dispatch
registry, so for every `ToolsState` — including states enabling them —
`dispatchToolCall` fails with the unknown-tool error and they never appear
among the enabled tool definitions. -/
theorem claim_C10_orphan_tools {A R : Type} (handlers : String → A → R)
    (args : A) (toolsState : ToolsState) :
    (∃ tool ∈ ALL_TOOLS, tool.id = "transaction_operations"
        ∧ tool.configKey = "tools.modeling.transactionOperations"
        ∧ tool.defaultEnabled = true)
    ∧ (∃ tool ∈ ALL_TOOLS, tool.id = "perspective_operations"
        ∧ tool.configKey = "tools.modeling.perspectiveOperations")
    ∧ "transaction_operations" ∉ registryIds
    ∧ "perspective_operations" ∉ registryIds
    ∧ dispatchToolCall handlers "transaction_operations" args toolsState
        = .errUnknown "Ferramenta desconhecida: transaction_operations"
    ∧ dispatchToolCall handlers "perspective_operations" args toolsState
        = .errUnknown "Ferramenta desconhecida: perspective_operations"
    ∧ "transaction_operations" ∉ getEnabledToolDefinitions toolsState
    ∧ "perspective_operations" ∉ getEnabledToolDefinitions toolsState := by
  have hdispatch : ∀ n, n ∉ registryIds →
      dispatchToolCall handlers n args toolsState
        = .errUnknown ("Ferramenta desconhecida: " ++ n) := by
    intro n hn
    unfold dispatchToolCall
    rw [lookup_TOOL_REGISTRY, if_neg hn]
  have hfilter : ∀ n, n ∉ registryIds → n ∉ getEnabledToolDefinitions toolsState := by
    intro n hn hmem
    exact hn (List.mem_of_mem_filter hmem)
  exact ⟨by decide, by decide, by decide, by decide,
    hdispatch "transaction_operations" (by decide),
    hdispatch "perspective_operations" (by decide),
    hfilter "transaction_operations" (by decide),
    hfilter "perspective_operations" (by decide)⟩

/-- A state that enables every tool id whatsoever. -/
def allEnabledState : ToolsState := fun _ => some true

theorem claim_C10_witness :
    dispatchToolCall (fun n (_ : Unit) => n) "transaction_operations" () allEnabledState
        = .errUnknown "Ferramenta desconhecida: transaction_operations"
    ∧ "transaction_operations" ∉ getEnabledToolDefinitions allEnabledState :=
  ⟨(claim_C10_orphan_tools (fun n (_ : Unit) => n) () allEnabledState).2.2.2.2.1,
   (claim_C10_orphan_tools (fun n (_ : Unit) => n) () allEnabledState).2.2.2.2.2.2.1⟩

/-! ## Claim C1 -/

/-- A reloaded configuration with the read-only flag set while the
persisted per-tool settings still enable the destructive tool
`database_operations`. -/
def reloadedReadOnlyConfig : ServerConfig where
  tools := setTool emptyToolsState "database_operations" true
  auth := { tenantId := "tenant1", clientId := "client1",
            method := .interactive, clientSecret := none }
  connection := { defaultSemanticModelIds := [], xmlaEndpoint := "" }
  readOnly := true
  requireConfirmation := true

/-- Claim C1 fails on the code: at startup the read-only pass forces the
destructive `database_operations` off, but the `fs.watchFile` reload
callback copies `newConfig.tools` verbatim — its `if (newConfig.readOnly)`
block is empty — so after a reload with `readOnly = true` the persisted
`true` survives: the tool is listed as enabled and dispatchable, although
its descriptor is destructive, contradicting the claim (and the source's
own `Re-apply read-only restriction` comment). -/
theorem claim_C1_readonly_reload_bug :
    reloadedReadOnlyConfig.readOnly = true
    ∧ (∃ tool ∈ ALL_TOOLS, tool.id = "database_operations" ∧ tool.isDestructive = true)
    ∧ startupToolsState reloadedReadOnlyConfig "database_operations" = some false
    ∧ reloadedToolsState reloadedReadOnlyConfig "database_operations" = some true
    ∧ "database_operations"
        ∈ getEnabledToolDefinitions (reloadedToolsState reloadedReadOnlyConfig)
    ∧ dispatchToolCall (fun n (_ : Unit) => n) "database_operations" ()
        (reloadedToolsState reloadedReadOnlyConfig)
        = .ok "database_operations" := by
  refine ⟨rfl, by decide, by decide, rfl, by decide, by decide⟩

end PowerBiMcpAec

namespace PowerBiMcpAec

/-! ## Claim C9 -/

/-- Claim C9: applying a `PermissionProfile` built from a predicate yields
a `ToolsState` mapping each tool id of the full registry to exactly the
predicate evaluated on that tool's descriptor, and reapplying the same
profile leaves the state unchanged (idempotence). -/
theorem claim_C9_profile_application (predicate : ToolInfo → Bool)
    (nm ds : String) (tool : ToolInfo) (ht : tool ∈ ALL_TOOLS) :
    applyProfile { name := nm, description := ds,
                   toolsState := buildProfileState predicate } tool.id
        = some (predicate tool)
    ∧ ∀ current : ToolsState,
        applyProfileUpdate
            (applyProfileUpdate current
              { name := nm, description := ds,
                toolsState := buildProfileState predicate })
            { name := nm, description := ds,
              toolsState := buildProfileState predicate }
          = applyProfileUpdate current
              { name := nm, description := ds,
                toolsState := buildProfileState predicate } := by
  refine ⟨?_, fun current => rfl⟩
  fin_cases ht <;> rfl

end PowerBiMcpAec

namespace PowerBiMcpAec

theorem claim_C9_witness :
    ({ id := "database_operations",
       configKey := "tools.modeling.databaseOperations",
       name := "Operações de Banco de Dados",
       description := "Listar, criar, deletar e gerenciar bancos de dados/modelos semânticos",
       category := .modeling, defaultEnabled := true,
       isDestructive := true, isAdvanced := false } : ToolInfo) ∈ ALL_TOOLS
    ∧ applyProfile { name := "Somente Leitura",
                     description := "Apenas consultas e leitura de esquema — sem modificações",
                     toolsState := buildProfileState
                       (fun tool => !tool.isDestructive && !tool.isAdvanced) }
        "database_operations"
        = some false :=
  ⟨by simp [ALL_TOOLS],
   (claim_C9_profile_application (fun tool => !tool.isDestructive && !tool.isAdvanced)
      "Somente Leitura" "Apenas consultas e leitura de esquema — sem modificações"
      { id := "database_operations",
        configKey := "tools.modeling.databaseOperations",
        name := "Operações de Banco de Dados",
        description := "Listar, criar, deletar e gerenciar bancos de dados/modelos semânticos",
        category := .modeling, defaultEnabled := true,
        isDestructive := true, isAdvanced := false }
      (by simp [ALL_TOOLS])).1⟩

/-! ## Claim C7 -/

/-- The previously published effective state of the counterexample: the
advanced `partition_operations` tool had been switched on (its default is
off), and an auth provider was live. -/
def prevPublishedCE : PublishedState where
  tools := setTool emptyToolsState "partition_operations" true
  auth := mkAuthProvider { tenantId := "tenantX", clientId := "clientX",
                           method := .interactive, clientSecret := none }

/-- A process environment with none of the config env vars set. -/
def serverEnvCE : ServerEnv where
  tenantIdVar := none
  clientIdVar := none
  xmlaEndpointVar := none
  readOnlyVar := none

/-- Claim C7's retention part fails on the code: when the watched file
turns malformed (`JSON.parse` throws, modelled by `parsed = none`),
`loadConfig` falls through to the built-in default config, and the reload
callback publishes it — the previously published `ToolsState` is replaced
by `getDefaultToolsState`, not retained: `partition_operations` flips from
`some true` back to the default `some false`. -/
theorem claim_C7_counterexample :
    prevPublishedCE.tools "partition_operations" = some true
    ∧ loadConfig (some "/tmp/powerbi-config.json") true none serverEnvCE
        = defaultServerConfig serverEnvCE
    ∧ (reloadCallback prevPublishedCE
        (loadConfig (some "/tmp/powerbi-config.json") true none serverEnvCE)).tools
          "partition_operations"
        = some false := by
  exact ⟨rfl, rfl, rfl⟩

/-- Claim C7 amended: on a malformed snapshot the reconciler does not
crash and reports the error, but instead of retaining the last good state
it publishes the built-in default configuration — the published tool state
becomes the default one (ignoring the previous state entirely) and the
auth provider is reconfigured with the env-derived default `AuthConfig`
(dropping its token cache). -/
theorem claim_C7_amended (prev : PublishedState) (configPath : String)
    (fileExists : Bool) (env : ServerEnv) :
    (reloadCallback prev (loadConfig (some configPath) fileExists none env)).tools
        = (defaultServerConfig env).tools
    ∧ (reloadCallback prev (loadConfig (some configPath) fileExists none env)).auth
        = updateConfig prev.auth (defaultServerConfig env).auth := by
  unfold loadConfig
  split
  · exact ⟨rfl, rfl⟩
  · exact ⟨rfl, rfl⟩

end PowerBiMcpAec

namespace PowerBiMcpAec

/-! ## Claim C8 -/

/-- A client-credentials config carrying a secret. -/
def ccConfigWithSecret : AuthConfig where
  tenantId := "tenant1"
  clientId := "client1"
  method := .clientCredentials
  clientSecret := some "segredo-antigo"

/-- The same config after the secret was removed. -/
def ccConfigNoSecret : AuthConfig where
  tenantId := "tenant1"
  clientId := "client1"
  method := .clientCredentials
  clientSecret := none

/-- An environment whose client-credential network call succeeds. -/
def envNetOk : AcquireEnv where
  interactiveResult := .error "interativo indisponível"
  deviceCodeResult := .error "device code indisponível"
  clientCredResult := .ok { accessToken := "TOKEN-DA-REDE", expiresOn := some 999999999 }

/-- Claim C8 fails on the code: `initializeClients` only constructs a new
client for the branch the new config selects, so after reconfiguring from
a client-credentials config with a secret to one with the secret absent,
the stale `ConfidentialClientApplication` survives, the fail-fast guard
`!this.cca` passes, and `getAccessToken` attempts (and here completes) a
network acquisition instead of failing immediately. -/
theorem claim_C8_counterexample :
    ccConfigNoSecret.method = .clientCredentials
    ∧ ccConfigNoSecret.clientSecret = none
    ∧ (updateConfig (mkAuthProvider ccConfigWithSecret) ccConfigNoSecret).cca = true
    ∧ (getAccessToken (updateConfig (mkAuthProvider ccConfigWithSecret) ccConfigNoSecret)
        0 envNetOk).1
        = .ok "TOKEN-DA-REDE" :=
  ⟨rfl, rfl, rfl, rfl⟩

/-- Claim C8 amended: after a (re)configuration to the clientCredentials
method with `tenantId` empty, or with `clientSecret` absent/empty while no
confidential client survives from an earlier configuration (in particular
on a freshly constructed provider), `getAccessToken` fails immediately
with a descriptive error: the result is an `error`, the state is
unchanged (nothing cached), and the outcome is independent of the
environment — no network acquisition is consulted. -/
theorem claim_C8_amended (s : AuthState) (c : AuthConfig) (now : Int)
    (env env2 : AcquireEnv)
    (hm : c.method = .clientCredentials)
    (h : (secretTruthy c = false ∧ s.cca = false) ∨ c.tenantId = "") :
    ∃ e, getAccessToken (updateConfig s c) now env = (.error e, updateConfig s c)
      ∧ getAccessToken (updateConfig s c) now env2 = (.error e, updateConfig s c) := by
  have hcache : (updateConfig s c).cachedToken = none := updateConfig_cachedToken s c
  have hconfig : (updateConfig s c).config = c := by
    unfold updateConfig initializeClients
    split <;> rfl
  have hguard : ∃ e, ∀ envx : AcquireEnv,
      acquireToken (updateConfig s c) envx = .error e := by
    by_cases hcca : (updateConfig s c).cca = true
    · rcases h with ⟨hsec, hscca⟩ | htid
      · exfalso
        unfold updateConfig initializeClients at hcca
        rw [if_neg (by simp [hm, hsec])] at hcca
        dsimp only at hcca
        rw [hscca] at hcca
        exact Bool.false_ne_true hcca
      · refine ⟨"tenantId é obrigatório para Client Credentials", fun envx => ?_⟩
        unfold acquireToken
        rw [hconfig, hm]
        dsimp only
        rw [hcca]
        simp [htid]
    · rw [Bool.not_eq_true] at hcca
      refine ⟨"ConfidentialClientApplication não inicializado", fun envx => ?_⟩
      unfold acquireToken
      rw [hconfig, hm]
      dsimp only
      rw [hcca]
      simp
  have hGet : ∀ envx : AcquireEnv, ∀ e, acquireToken (updateConfig s c) envx = .error e →
      getAccessToken (updateConfig s c) now envx = (.error e, updateConfig s c) := by
    intro envx e he
    unfold getAccessToken
    rw [hcache]
    dsimp only
    unfold acquireAndCache
    rw [he]
  obtain ⟨e, hAll⟩ := hguard
  exact ⟨e, hGet env e (hAll env), hGet env2 e (hAll env2)⟩

theorem claim_C8_witness :
    ∃ e, getAccessToken (mkAuthProvider ccConfigNoSecret) 0 envNetOk
          = (.error e, mkAuthProvider ccConfigNoSecret)
      ∧ getAccessToken (mkAuthProvider ccConfigNoSecret) 0 envNew
          = (.error e, mkAuthProvider ccConfigNoSecret) :=
  claim_C8_amended
    { config := ccConfigNoSecret, pca := false, cca := false, cachedToken := none }
    ccConfigNoSecret 0 envNetOk envNew rfl (Or.inl ⟨rfl, rfl⟩)

end PowerBiMcpAec

namespace PowerBiMcpAec

/-! ## Claim C6 -/

/-- `geminiProcessLine` emits only chunk events. -/
theorem geminiProcessLine_chunks (decode : String → DecodeResult) :
    ∀ l e, e ∈ geminiProcessLine decode l → ∃ s, e = ChatEvent.chunk s := by
  intro l e he
  unfold geminiProcessLine at he
  split at he
  · split at he
    · split at he
      · exact absurd he (List.not_mem_nil e)
      · rw [List.mem_singleton] at he
        exact ⟨_, he⟩
    · exact absurd he (List.not_mem_nil e)
    · exact absurd he (List.not_mem_nil e)
  · exact absurd he (List.not_mem_nil e)

/-- `groqProcessLine` emits only chunk events. -/
theorem groqProcessLine_chunks (decode : String → DecodeResult) :
    ∀ l e, e ∈ groqProcessLine decode l → ∃ s, e = ChatEvent.chunk s := by
  intro l e he
  unfold groqProcessLine at he
  split at he
  · dsimp only at he
    split at he
    · exact absurd he (List.not_mem_nil e)
    · split at he
      · split at he
        · exact absurd he (List.not_mem_nil e)
        · rw [List.mem_singleton] at he
          exact ⟨_, he⟩
      · exact absurd he (List.not_mem_nil e)
      · exact absurd he (List.not_mem_nil e)
  · exact absurd he (List.not_mem_nil e)

/-- Line-by-line folding preserves chunk-only event lists. -/
theorem foldl_lines_chunks (pl : String → List ChatEvent)
    (hpl : ∀ l e, e ∈ pl l → ∃ s, e = ChatEvent.chunk s) :
    ∀ (lines : List String) (init : List ChatEvent),
      (∀ e ∈ init, ∃ s, e = ChatEvent.chunk s) →
      ∀ e ∈ lines.foldl (fun es l => es ++ pl l) init, ∃ s, e = ChatEvent.chunk s := by
  intro lines
  induction lines with
  | nil => exact fun init hinit e he => hinit e he
  | cons a as ih =>
    intro init hinit e he
    rw [List.foldl_cons] at he
    refine ih (init ++ pl a) ?_ e he
    intro x hx
    rcases List.mem_append.mp hx with h1 | h2
    · exact hinit x h1
    · exact hpl a x h2

/-- The decode loop over the delivered transport chunks emits only chunk
events. -/
theorem streamChunkEvents_chunks (pl : String → List ChatEvent)
    (hpl : ∀ l e, e ∈ pl l → ∃ s, e = ChatEvent.chunk s) :
    ∀ (delivered : List String) (acc : String × List ChatEvent),
      (∀ e ∈ acc.2, ∃ s, e = ChatEvent.chunk s) →
      ∀ e ∈ (delivered.foldl (feedTransportChunk pl) acc).2, ∃ s, e = ChatEvent.chunk s := by
  intro delivered
  induction delivered with
  | nil => exact fun acc hacc e he => hacc e he
  | cons ch rest ih =>
    intro acc hacc e he
    rw [List.foldl_cons] at he
    refine ih (feedTransportChunk pl acc ch) ?_ e he
    intro x hx
    unfold feedTransportChunk at hx
    dsimp only at hx
    rcases List.mem_append.mp hx with h1 | h2
    · exact hacc x h1
    · exact foldl_lines_chunks pl hpl _ [] (fun y hy => absurd hy (List.not_mem_nil y)) x h2

/-- `countTerminals` distributes over appending. -/
theorem countTerminals_append (a b : List ChatEvent) :
    countTerminals (a ++ b) = countTerminals a + countTerminals b :=
  List.countP_append _ _ _

/-- `countErrors` distributes over appending. -/
theorem countErrors_append (a b : List ChatEvent) :
    countErrors (a ++ b) = countErrors a + countErrors b :=
  List.countP_append _ _ _

/-- A chunk-only event list holds no terminal events. -/
theorem countTerminals_of_chunks (es : List ChatEvent)
    (h : ∀ e ∈ es, ∃ s, e = ChatEvent.chunk s) : countTerminals es = 0 := by
  unfold countTerminals
  rw [List.countP_eq_zero]
  intro a ha
  obtain ⟨s, rfl⟩ := h a ha
  simp [isTerminal]

/-- A chunk-only event list holds no error events. -/
theorem countErrors_of_chunks (es : List ChatEvent)
    (h : ∀ e ∈ es, ∃ s, e = ChatEvent.chunk s) : countErrors es = 0 := by
  unfold countErrors
  rw [List.countP_eq_zero]
  intro a ha
  obtain ⟨s, rfl⟩ := h a ha
  simp

/-- Claim C6 amended: every send emits exactly one terminal event and it
is the last event of the sequence (everything before it is a chunk
event); the terminal is `done` on transport completion (zero error
events), and a single `error` on a transport error whose message is not
cancellation-like. A payload line that fails to decode, however, is
silently skipped — it produces no error event and streaming continues. -/
theorem claim_C6_amended (decode : String → DecodeResult) (delivered : List String)
    (transportError : Option String) :
    (∀ e ∈ streamChunkEvents (geminiProcessLine decode) delivered,
        ∃ s, e = ChatEvent.chunk s)
    ∧ (∀ e ∈ streamChunkEvents (groqProcessLine decode) delivered,
        ∃ s, e = ChatEvent.chunk s)
    ∧ geminiSendEvents decode delivered transportError
        = streamChunkEvents (geminiProcessLine decode) delivered
            ++ [terminalEvent transportError]
    ∧ groqSendEvents decode delivered transportError
        = streamChunkEvents (groqProcessLine decode) delivered
            ++ [terminalEvent transportError]
    ∧ isTerminal (terminalEvent transportError) = true
    ∧ countTerminals (geminiSendEvents decode delivered transportError) = 1
    ∧ countTerminals (groqSendEvents decode delivered transportError) = 1
    ∧ (∀ m, transportError = some m → isCancelLike m = false →
        countErrors (geminiSendEvents decode delivered transportError) = 1)
    ∧ (transportError = none →
        countErrors (geminiSendEvents decode delivered transportError) = 0) := by
  have hgem : ∀ e ∈ streamChunkEvents (geminiProcessLine decode) delivered,
      ∃ s, e = ChatEvent.chunk s :=
    streamChunkEvents_chunks (geminiProcessLine decode) (geminiProcessLine_chunks decode)
      delivered ("", []) (fun y hy => absurd hy (List.not_mem_nil y))
  have hgroq : ∀ e ∈ streamChunkEvents (groqProcessLine decode) delivered,
      ∃ s, e = ChatEvent.chunk s :=
    streamChunkEvents_chunks (groqProcessLine decode) (groqProcessLine_chunks decode)
      delivered ("", []) (fun y hy => absurd hy (List.not_mem_nil y))
  have hterm : isTerminal (terminalEvent transportError) = true := by
    unfold terminalEvent
    cases transportError
    · rfl
    · dsimp only
      split <;> rfl
  refine ⟨hgem, hgroq, rfl, rfl, hterm, ?_, ?_, ?_, ?_⟩
  · show countTerminals (streamChunkEvents (geminiProcessLine decode) delivered
        ++ [terminalEvent transportError]) = 1
    rw [countTerminals_append, countTerminals_of_chunks _ hgem]
    simp [countTerminals, hterm]
  · show countTerminals (streamChunkEvents (groqProcessLine decode) delivered
        ++ [terminalEvent transportError]) = 1
    rw [countTerminals_append, countTerminals_of_chunks _ hgroq]
    simp [countTerminals, hterm]
  · intro m hm hnc
    show countErrors (streamChunkEvents (geminiProcessLine decode) delivered
        ++ [terminalEvent transportError]) = 1
    rw [countErrors_append, countErrors_of_chunks _ hgem, hm]
    simp [countErrors, terminalEvent, hnc]
  · intro hm
    show countErrors (streamChunkEvents (geminiProcessLine decode) delivered
        ++ [terminalEvent transportError]) = 0
    rw [countErrors_append, countErrors_of_chunks _ hgem, hm]
    simp [countErrors, terminalEvent]

end PowerBiMcpAec

namespace PowerBiMcpAec

/-- A decoder for the counterexample: payloads `OK1` and `OK2` decode to
text, anything else fails to parse (as a malformed JSON line would). -/
def decodeCE (s : String) : DecodeResult :=
  if s == "OK1" then .text "hello"
  else if s == "OK2" then .text "world"
  else .parseFail

/-- Claim C6 fails on the code for decode errors: in a stream whose middle
payload line fails to decode, the relay emits no error event at all —
the malformed line is skipped (`catch` with an empty body) and a further
chunk event follows, then `done`; not the claimed "exactly one error
event and no further events". -/
theorem claim_C6_counterexample :
    decodeCE "BAD" = DecodeResult.parseFail
    ∧ geminiSendEvents decodeCE ["data: OK1\ndata: BAD\ndata: OK2\n"] none
        = [ChatEvent.chunk "hello", ChatEvent.chunk "world", ChatEvent.done]
    ∧ countErrors (geminiSendEvents decodeCE ["data: OK1\ndata: BAD\ndata: OK2\n"] none)
        = 0 :=
  ⟨rfl, rfl, rfl⟩

theorem claim_C6_witness :
    countTerminals (geminiSendEvents decodeCE ["data: OK1\n"] none) = 1
    ∧ countErrors (geminiSendEvents decodeCE ["data: OK1\n"] (some "falha de rede")) = 1 :=
  ⟨(claim_C6_amended decodeCE ["data: OK1\n"] none).2.2.2.2.2.1,
   (claim_C6_amended decodeCE ["data: OK1\n"] (some "falha de rede")).2.2.2.2.2.2.2.1
     "falha de rede" rfl (by decide)⟩

end PowerBiMcpAec
